import Mathlib

set_option maxRecDepth 8000

/-
Verification development for the flow-hackathon repository.

Each Python module relevant to the checked claims is shallowly embedded:
pure logic becomes Lean functions, stateful code becomes explicit state
passing, Python exceptions become `Except`, and calls to external services
(LLM APIs, sub-agents, TTS) become oracle parameters whose outcome is
either a returned value or a raised exception.  Wall-clock timestamps are
modelled as rationals; fields that only record elapsed wall-clock time
(`execution_time`, `total_execution_time`, `total_time`, `timestamp`) are
elided from the embedded records since they carry no logical content.
-/

namespace A2A

/-- Task types available to the A2A system (a2a_models.py, `TaskType`). -/
inductive TaskType
  | google_assistant
  | web_use
deriving DecidableEq, Repr

/-- Individual task to be executed by a specialized agent (a2a_models.py, `Task`). -/
structure Task where
  task_type : TaskType
  instructions : String
  task_id : Option String := none
deriving DecidableEq, Repr

/-- Collection of tasks to be executed (a2a_models.py, `TaskList`). -/
structure TaskList where
  tasks : List Task
  reasoning : String
deriving DecidableEq, Repr

/-- Direct response without task execution (a2a_models.py, `FinalResponse`). -/
structure FinalResponse where
  response : String
  reasoning : String
deriving DecidableEq, Repr

/-- The `decision_type` literal of a `RouterDecision`. -/
inductive DecisionType
  | final_response
  | task_list
deriving DecidableEq, Repr

/-- The `content` union of a `RouterDecision`: either a `FinalResponse` or a
`TaskList` (pydantic `Union[FinalResponse, TaskList]`). -/
inductive RouterContent
  | finalResponse (r : FinalResponse)
  | taskList (t : TaskList)
deriving DecidableEq, Repr

/-- Router decision (a2a_models.py, `RouterDecision`).  As in the pydantic
model, `decision_type` and `content` are independent fields; nothing forces
them to agree. -/
structure RouterDecision where
  decision_type : DecisionType
  content : RouterContent
deriving DecidableEq, Repr

/-- Result from executing a single task (a2a_models.py, `TaskResult`,
without the wall-clock `execution_time` field). -/
structure TaskResult where
  task_id : String
  task_type : TaskType
  success : Bool
  result : String
  error_message : Option String := none
deriving DecidableEq, Repr

/-- Summary of all executed tasks (a2a_models.py, `TaskExecutionSummary`,
without the wall-clock `total_execution_time` field). -/
structure TaskExecutionSummary where
  total_tasks : Nat
  successful_tasks : Nat
  failed_tasks : Nat
  results : List TaskResult
deriving DecidableEq, Repr

/-- Final response from the synthesis agent (a2a_models.py,
`FinalAgentResponse`). -/
structure FinalAgentResponse where
  response : String
  summary : String
  tasks_performed : Option (List String) := none
deriving DecidableEq, Repr

/-- The `flow_type` literal of an `A2AFlowResult`. -/
inductive FlowType
  | direct_response
  | task_execution
deriving DecidableEq, Repr

/-- Complete result of the A2A flow (a2a_models.py, `A2AFlowResult`, without
the wall-clock `total_time` and `timestamp` fields). -/
structure A2AFlowResult where
  flow_type : FlowType
  final_response : String
  execution_summary : Option TaskExecutionSummary := none
deriving DecidableEq, Repr

/-- Python attribute access `decision.content.response`: succeeds only when
the union member is a `FinalResponse`, otherwise raises `AttributeError`. -/
def contentResponse : RouterContent → Except String FinalResponse
  | .finalResponse r => .ok r
  | .taskList _ => .error "AttributeError: TaskList has no attribute response"

/-- Python attribute access `decision.content.tasks`: succeeds only when the
union member is a `TaskList`, otherwise raises `AttributeError`. -/
def contentTasks : RouterContent → Except String TaskList
  | .taskList t => .ok t
  | .finalResponse _ => .error "AttributeError: FinalResponse has no attribute tasks"

/-- The fallback `RouterDecision` built in the `except` branch of
`RouterAgent.route_request` (router_agent.py lines 120-130). -/
def routeRequestFallback (e : String) : RouterDecision :=
  { decision_type := .final_response,
    content := .finalResponse
      { response := "I apologize, but I encountered an error processing your request: " ++ e,
        reasoning := "Fallback response due to router agent error" } }

/-- `RouterAgent.route_request` (router_agent.py lines 69-130).
`initialized` is the truth of `self.chat_model`; `modelCall` is the outcome
of `self.chat_model.invoke(messages)` (a returned decision or a raised
exception).  An uninitialized agent raises `RuntimeError` before the `try`
block; a failed model call is caught and turned into the fallback. -/
def routeRequest (initialized : Bool) (modelCall : Except String RouterDecision) :
    Except String RouterDecision :=
  if initialized then
    match modelCall with
    | .ok d => .ok d
    | .error e => .ok (routeRequestFallback e)
  else
    .error "RuntimeError: Router Agent not properly initialized"

/-- Body of the `try` block of `A2AOrchestrator.process_message`
(a2a_orchestrator.py lines 51-102).  `route` is the outcome of
`self.router_agent.route_request`, `exec` of
`self.task_executor.execute_tasks`, and `synth` of
`self.final_answer_agent.create_final_response`. -/
def processMessageCore (route : Except String RouterDecision)
    (exec : List Task → Except String TaskExecutionSummary)
    (synth : String → TaskExecutionSummary → Except String FinalAgentResponse)
    (userMessage : String) : Except String A2AFlowResult := do
  let decision ← route
  match decision.decision_type with
  | .final_response => do
      let r ← contentResponse decision.content
      pure { flow_type := .direct_response,
             final_response := r.response,
             execution_summary := none }
  | .task_list => do
      let tl ← contentTasks decision.content
      let task_summary ← exec tl.tasks
      let final_response ← synth userMessage task_summary
      pure { flow_type := .task_execution,
             final_response := final_response.response,
             execution_summary := some task_summary }

/-- The error result built in the `except` branch of
`A2AOrchestrator.process_message` (a2a_orchestrator.py lines 104-115). -/
def errorFlowResult (e : String) : A2AFlowResult :=
  { flow_type := .direct_response,
    final_response := "I apologize, but I encountered an error processing your request: " ++ e,
    execution_summary := none }

/-- `A2AOrchestrator.process_message` (a2a_orchestrator.py lines 34-115):
the `try` body with every raised exception caught and turned into an error
`A2AFlowResult`. -/
def processMessage (route : Except String RouterDecision)
    (exec : List Task → Except String TaskExecutionSummary)
    (synth : String → TaskExecutionSummary → Except String FinalAgentResponse)
    (userMessage : String) : A2AFlowResult :=
  match processMessageCore route exec synth userMessage with
  | .ok result => result
  | .error e => errorFlowResult e

/-- `TaskExecutor._execute_web_task` (task_executor.py lines 128-159), with
the web agent call abstracted: `outcome` is either the `WebUseResponse`
fields returned by `self.web_agent.execute_web_task` or a raised
exception. -/
inductive AgentOutcome
  | returned (success : Bool) (result : String) (error_message : Option String)
  | raised (e : String)
deriving DecidableEq, Repr

/-- `TaskExecutor._execute_web_task` (task_executor.py lines 128-159). -/
def execWebTask (outcome : AgentOutcome) (task : Task) : TaskResult :=
  match outcome with
  | .returned s r em =>
      { task_id := task.task_id.getD "",
        task_type := task.task_type,
        success := s,
        result := r,
        error_message := em }
  | .raised e =>
      { task_id := task.task_id.getD "",
        task_type := task.task_type,
        success := false,
        result := "",
        error_message := some ("Web task execution error: " ++ e) }

/-- `TaskExecutor._execute_assistant_task` (task_executor.py lines 161-191). -/
def execAssistantTask (outcome : AgentOutcome) (task : Task) : TaskResult :=
  match outcome with
  | .returned s r em =>
      { task_id := task.task_id.getD "",
        task_type := task.task_type,
        success := s,
        result := r,
        error_message := em }
  | .raised e =>
      { task_id := task.task_id.getD "",
        task_type := task.task_type,
        success := false,
        result := "",
        error_message := some ("Assistant task execution error: " ++ e) }

/-- One iteration of the loop in `TaskExecutor.execute_tasks`
(task_executor.py lines 58-110): assign `task_id` (keeping a provided one,
otherwise the generated `task_{i}_{uuid}` label `genId`), then dispatch on
the task type.  Both helpers catch their own exceptions, so the loop always
obtains a `TaskResult` for the two existing task types. -/
def execTask (outcome : AgentOutcome) (genId : String) (task : Task) : TaskResult :=
  let tid := task.task_id.getD genId
  match task.task_type with
  | .web_use => execWebTask outcome { task with task_id := some tid }
  | .google_assistant => execAssistantTask outcome { task with task_id := some tid }

/-- The loop of `TaskExecutor.execute_tasks`, enumerating tasks from index
`i` (Python enumerates from 1).  `outcome j` is the sub-agent outcome for
the task at index `j`, `genId j` its generated id label. -/
def executeTasksGo (outcome : Nat → AgentOutcome) (genId : Nat → String) :
    Nat → List Task → List TaskResult
  | _, [] => []
  | i, task :: rest =>
      execTask (outcome i) (genId i) task :: executeTasksGo outcome genId (i + 1) rest

/-- `TaskExecutor.execute_tasks` (task_executor.py lines 32-126): run every
task in order, counting successes and failures.  The early return for an
empty list builds the same all-zero summary as the general path. -/
def executeTasks (outcome : Nat → AgentOutcome) (genId : Nat → String)
    (tasks : List Task) : TaskExecutionSummary :=
  let results := executeTasksGo outcome genId 1 tasks
  { total_tasks := tasks.length,
    successful_tasks := (results.filter (fun r => r.success)).length,
    failed_tasks := (results.filter (fun r => !r.success)).length,
    results := results }

lemma executeTasksGo_length (outcome : Nat → AgentOutcome) (genId : Nat → String) :
    ∀ (tasks : List Task) (i : Nat), (executeTasksGo outcome genId i tasks).length = tasks.length := by
  intro tasks
  induction tasks with
  | nil => intro i; rfl
  | cons t rest ih => intro i; simp [executeTasksGo, ih]

lemma length_filter_bool_add {α : Type} (p : α → Bool) :
    ∀ l : List α, (l.filter p).length + (l.filter (fun a => !p a)).length = l.length := by
  intro l
  induction l with
  | nil => rfl
  | cons a rest ih =>
    cases h : p a
    · simp [List.filter_cons, h]
      omega
    · simp [List.filter_cons, h]
      omega

lemma executeTasksGo_getElem (outcome : Nat → AgentOutcome) (genId : Nat → String) :
    ∀ (tasks : List Task) (i j : Nat) (t : Task), tasks[j]? = some t →
      (executeTasksGo outcome genId i tasks)[j]? = some (execTask (outcome (i + j)) (genId (i + j)) t) := by
  intro tasks
  induction tasks with
  | nil => intro i j t h; simp at h
  | cons hd rest ih =>
    intro i j t h
    cases j with
    | zero =>
      rw [List.getElem?_cons_zero] at h
      injection h with h
      subst h
      simp only [executeTasksGo, List.getElem?_cons_zero, Nat.add_zero]
    | succ j =>
      rw [List.getElem?_cons_succ] at h
      simp only [executeTasksGo, List.getElem?_cons_succ]
      rw [ih (i + 1) j t h]
      have harith : i + 1 + j = i + (j + 1) := by omega
      rw [harith]

/-- C2: `A2AOrchestrator.process_message` never propagates an exception: any
error `e` raised during routing, task execution or synthesis is caught and
returned as an `A2AFlowResult` with flow type `direct_response` whose
`final_response` contains the error text; and `RouterAgent.route_request`,
once initialized, returns a fallback `final_response` decision instead of
raising when the model call fails. -/
theorem processMessage_never_raises :
    (∀ (route : Except String RouterDecision)
       (exec : List Task → Except String TaskExecutionSummary)
       (synth : String → TaskExecutionSummary → Except String FinalAgentResponse)
       (msg e : String),
        processMessageCore route exec synth msg = Except.error e →
          processMessage route exec synth msg = errorFlowResult e ∧
          (processMessage route exec synth msg).flow_type = FlowType.direct_response ∧
          (processMessage route exec synth msg).final_response =
            "I apologize, but I encountered an error processing your request: " ++ e) ∧
    (∀ modelCall : Except String RouterDecision,
        ∃ d, routeRequest true modelCall = Except.ok d ∧
          ∀ e, modelCall = Except.error e → d = routeRequestFallback e) := by
  constructor
  · intro route exec synth msg e h
    unfold processMessage
    rw [h]
    exact ⟨rfl, rfl, rfl⟩
  · intro modelCall
    cases modelCall with
    | ok d => exact ⟨d, rfl, fun e h => by cases h⟩
    | error e0 => exact ⟨routeRequestFallback e0, rfl, fun e h => by injection h with h; rw [h]⟩

/-- Witness for C2: a routing failure at a concrete input yields the error
flow result. -/
theorem processMessage_never_raises_witness :
    processMessage (Except.error "boom") (fun _ => Except.error "x")
        (fun _ _ => Except.error "x") "hi" = errorFlowResult "boom" :=
  (processMessage_never_raises.1 (Except.error "boom") (fun _ => Except.error "x")
    (fun _ _ => Except.error "x") "hi" "boom" rfl).1

/-- C3: on a router decision of type `final_response` the orchestrator
executes no tasks (the result does not depend on the task executor or the
synthesis agent) and returns flow type `direct_response` with the router's
response text and no execution summary; on a `task_list` decision it runs
the routed tasks through the task executor, calls the synthesis agent, and
returns flow type `task_execution` with the synthesis response and the task
execution summary. -/
theorem processMessage_flow_dispatch :
    (∀ (exec exec2 : List Task → Except String TaskExecutionSummary)
       (synth synth2 : String → TaskExecutionSummary → Except String FinalAgentResponse)
       (msg : String) (r : FinalResponse),
        processMessage (Except.ok ⟨DecisionType.final_response, RouterContent.finalResponse r⟩)
            exec synth msg =
          { flow_type := FlowType.direct_response,
            final_response := r.response,
            execution_summary := none } ∧
        processMessage (Except.ok ⟨DecisionType.final_response, RouterContent.finalResponse r⟩)
            exec synth msg =
          processMessage (Except.ok ⟨DecisionType.final_response, RouterContent.finalResponse r⟩)
            exec2 synth2 msg) ∧
    (∀ (exec : List Task → Except String TaskExecutionSummary)
       (synth : String → TaskExecutionSummary → Except String FinalAgentResponse)
       (msg : String) (tl : TaskList) (summary : TaskExecutionSummary)
       (fin : FinalAgentResponse),
        exec tl.tasks = Except.ok summary →
        synth msg summary = Except.ok fin →
        processMessage (Except.ok ⟨DecisionType.task_list, RouterContent.taskList tl⟩)
            exec synth msg =
          { flow_type := FlowType.task_execution,
            final_response := fin.response,
            execution_summary := some summary }) := by
  constructor
  · intro exec exec2 synth synth2 msg r
    exact ⟨rfl, rfl⟩
  · intro exec synth msg tl summary fin hexec hsynth
    unfold processMessage processMessageCore
    simp only [bind, Except.bind, contentTasks, hexec, hsynth]
    rfl

/-- Witness for C3: a concrete `task_list` decision with a successful
executor and synthesis call yields the task-execution flow result. -/
theorem processMessage_flow_dispatch_witness :
    processMessage (Except.ok ⟨DecisionType.task_list, RouterContent.taskList ⟨[], "r"⟩⟩)
        (fun _ => Except.ok ⟨0, 0, 0, []⟩) (fun _ _ => Except.ok ⟨"done", "s", none⟩) "hi" =
      { flow_type := FlowType.task_execution,
        final_response := "done",
        execution_summary := some ⟨0, 0, 0, []⟩ } :=
  processMessage_flow_dispatch.2 (fun _ => Except.ok ⟨0, 0, 0, []⟩)
    (fun _ _ => Except.ok ⟨"done", "s", none⟩) "hi" ⟨[], "r"⟩ ⟨0, 0, 0, []⟩
    ⟨"done", "s", none⟩ rfl rfl

/-- C9: `TaskExecutor.execute_tasks` returns a summary whose `total_tasks`
is the length of the input list, whose `results` hold exactly one
`TaskResult` per input task in input order, whose success and failure
counts sum to the total, and in which each result is determined by that
task and its own sub-agent outcome alone, so a failure or raised exception
in one task never prevents the execution of the later tasks. -/
theorem executeTasks_summary_invariants (outcome : Nat → AgentOutcome)
    (genId : Nat → String) (tasks : List Task) :
    (executeTasks outcome genId tasks).total_tasks = tasks.length ∧
    (executeTasks outcome genId tasks).results.length = tasks.length ∧
    (executeTasks outcome genId tasks).successful_tasks +
        (executeTasks outcome genId tasks).failed_tasks =
      (executeTasks outcome genId tasks).total_tasks ∧
    ∀ i t, tasks[i]? = some t →
      (executeTasks outcome genId tasks).results[i]? =
        some (execTask (outcome (i + 1)) (genId (i + 1)) t) := by
  refine ⟨rfl, executeTasksGo_length outcome genId tasks 1, ?_, ?_⟩
  · exact (length_filter_bool_add (fun r => r.success) _).trans
      (executeTasksGo_length outcome genId tasks 1)
  · intro i t h
    have step := executeTasksGo_getElem outcome genId tasks 1 i t h
    rwa [Nat.add_comm 1 i] at step

/-- Witness for C9: a two-task list in which the first task raises; the
second task still executes and both results appear in order. -/
theorem executeTasks_summary_invariants_witness :
    (executeTasks
        (fun i => if i = 1 then AgentOutcome.raised "boom" else AgentOutcome.returned true "ok" none)
        (fun _ => "gen")
        [⟨TaskType.web_use, "find weather", none⟩,
         ⟨TaskType.google_assistant, "send email", some "t2"⟩]).results[1]? =
      some (execTask (AgentOutcome.returned true "ok" none) "gen"
        ⟨TaskType.google_assistant, "send email", some "t2"⟩) :=
  (executeTasks_summary_invariants
      (fun i => if i = 1 then AgentOutcome.raised "boom" else AgentOutcome.returned true "ok" none)
      (fun _ => "gen")
      [⟨TaskType.web_use, "find weather", none⟩,
       ⟨TaskType.google_assistant, "send email", some "t2"⟩]).2.2.2 1
    ⟨TaskType.google_assistant, "send email", some "t2"⟩ rfl

end A2A

namespace SessionMgr

/-- One record of the `sessions` SQLite table, which is also the shape of
the `BrowserSession` dataclass (session_manager.py lines 21-30 and 46-60).
`datetime.isoformat` strings compare exactly like the instants they encode,
so timestamps are modelled as rational numbers of seconds. -/
structure SessionRow where
  session_id : String
  user_data_dir : String
  created_at : ℚ
  last_accessed : ℚ
  command_history : List String
  current_url : Option String := none
  is_active : Bool := true
deriving DecidableEq, Repr

/-- The state a `SessionManager` acts on: the rows of the `sessions` table
and the set of existing user-data directories on disk. -/
structure ManagerState where
  db : List SessionRow
  dirs : List String
deriving DecidableEq, Repr

/-- `INSERT OR REPLACE` keyed on the `session_id` primary key
(`SessionManager._save_session`, session_manager.py lines 124-140). -/
def saveSession (db : List SessionRow) (row : SessionRow) : List SessionRow :=
  if db.any (fun r => r.session_id == row.session_id) then
    db.map (fun r => if r.session_id == row.session_id then row else r)
  else
    db ++ [row]

/-- `SessionManager.get_session` (session_manager.py lines 82-102):
`SELECT * FROM sessions WHERE session_id = ? AND is_active = 1`. -/
def getSession (db : List SessionRow) (sid : String) : Option SessionRow :=
  db.find? (fun r => r.session_id == sid && r.is_active)

/-- Insertion step for `ORDER BY last_accessed DESC`. -/
def insertDesc (r : SessionRow) : List SessionRow → List SessionRow
  | [] => [r]
  | x :: xs => if x.last_accessed ≤ r.last_accessed then r :: x :: xs else x :: insertDesc r xs

/-- Sorting by `last_accessed` in descending order. -/
def sortByAccessedDesc : List SessionRow → List SessionRow
  | [] => []
  | x :: xs => insertDesc x (sortByAccessedDesc xs)

/-- `SessionManager.list_active_sessions` (session_manager.py lines 142-161):
`SELECT * FROM sessions WHERE is_active = 1 ORDER BY last_accessed DESC`. -/
def listActiveSessions (db : List SessionRow) : List SessionRow :=
  sortByAccessedDesc (db.filter (fun r => r.is_active))

/-- `SessionManager.add_command_to_session` (session_manager.py lines
109-122): look the session up, append the command, set the URL when one is
given and non-empty (Python truthiness), refresh `last_accessed`, keep only
the last 50 commands, and save. -/
def addCommandToSession (st : ManagerState) (sid command : String)
    (url : Option String) (now : ℚ) : ManagerState :=
  match getSession st.db sid with
  | none => st
  | some s =>
      let hist0 := s.command_history ++ [command]
      let newUrl := match url with
        | some u => if u.isEmpty then s.current_url else some u
        | none => s.current_url
      let hist := if hist0.length > 50 then hist0.drop (hist0.length - 50) else hist0
      let s2 := { s with command_history := hist, current_url := newUrl, last_accessed := now }
      { st with db := saveSession st.db s2 }

/-- `SessionManager.update_session` (session_manager.py lines 104-107). -/
def updateSession (st : ManagerState) (s : SessionRow) (now : ℚ) : ManagerState :=
  { st with db := saveSession st.db { s with last_accessed := now } }

/-- `SessionManager.cleanup_old_sessions` (session_manager.py lines
163-196): compute `cutoff = now - max_age_hours hours`, remove the
user-data directory of every row with `last_accessed < cutoff`, then mark
those rows inactive. -/
def cleanupOldSessions (st : ManagerState) (now max_age_hours : ℚ) : ManagerState :=
  let cutoff := now - 3600 * max_age_hours
  { db := st.db.map (fun r =>
      if r.last_accessed < cutoff then { r with is_active := false } else r),
    dirs := st.dirs.filter (fun d =>
      !(st.db.any (fun r => decide (r.last_accessed < cutoff) && r.user_data_dir == d))) }

/-- The `session_data["session"]` payload consumed by
`SessionManager.import_session_state` (the `storage_state` side file holds
no table state and is elided). -/
structure SessionData where
  session_id : String
  user_data_dir : String
  created_at : ℚ
  command_history : List String
  current_url : Option String := none
deriving DecidableEq, Repr

/-- `SessionManager.import_session_state` (session_manager.py lines
232-260): rebuild the session from the backup, with `last_accessed`
refreshed to the current time and `is_active` set, recreate its user-data
directory, and save.  The imported `command_history` is stored as is. -/
def importSessionState (st : ManagerState) (data : SessionData) (now : ℚ) : ManagerState :=
  let row : SessionRow :=
    { session_id := data.session_id,
      user_data_dir := data.user_data_dir,
      created_at := data.created_at,
      last_accessed := now,
      command_history := data.command_history,
      current_url := data.current_url,
      is_active := true }
  { db := saveSession st.db row,
    dirs := if st.dirs.contains data.user_data_dir then st.dirs else st.dirs ++ [data.user_data_dir] }

lemma mem_insertDesc (a r : SessionRow) :
    ∀ l : List SessionRow, a ∈ insertDesc r l ↔ a = r ∨ a ∈ l := by
  intro l
  induction l with
  | nil => simp [insertDesc]
  | cons x xs ih =>
    by_cases hle : x.last_accessed ≤ r.last_accessed
    · simp [insertDesc, hle]
    · simp [insertDesc, hle, ih]
      tauto

lemma mem_sortByAccessedDesc (a : SessionRow) :
    ∀ l : List SessionRow, a ∈ sortByAccessedDesc l ↔ a ∈ l := by
  intro l
  induction l with
  | nil => simp [sortByAccessedDesc]
  | cons x xs ih =>
    simp [sortByAccessedDesc, mem_insertDesc, ih]

lemma find?_map_congr {α : Type} (f : α → α) (p : α → Bool) :
    ∀ l : List α, (∀ r ∈ l, (p r = false ∧ p (f r) = false) ∨ f r = r) →
      (l.map f).find? p = l.find? p := by
  intro l
  induction l with
  | nil => intro _; rfl
  | cons x xs ih =>
    intro hfix
    have hx := hfix x (by simp)
    have hxs : ∀ r ∈ xs, (p r = false ∧ p (f r) = false) ∨ f r = r := by
      intro r hr; exact hfix r (by simp [hr])
    rcases hx with ⟨hpx, hpfx⟩ | hfx
    · simp only [List.map_cons, List.find?_cons, hpx, hpfx]
      exact ih hxs
    · simp only [List.map_cons, List.find?_cons, hfx]
      cases hpc : p x
      · exact ih hxs
      · rfl

/-- C1: after `cleanup_old_sessions(max_age_hours)` runs at time `now`,
every session whose `last_accessed` is older than the cutoff is expired:
`get_session` returns `none` for its id, `list_active_sessions` does not
include it, and its user-data directory is removed; sessions accessed at or
after the cutoff remain retrievable unchanged. -/
theorem cleanup_old_sessions_expires (st : ManagerState) (now maxAge : ℚ) :
    (∀ sid : String,
        (∀ r ∈ st.db, r.session_id = sid → r.last_accessed < now - 3600 * maxAge) →
        getSession (cleanupOldSessions st now maxAge).db sid = none ∧
        ∀ s ∈ listActiveSessions (cleanupOldSessions st now maxAge).db, s.session_id ≠ sid) ∧
    (∀ r ∈ st.db, r.last_accessed < now - 3600 * maxAge →
        r.user_data_dir ∉ (cleanupOldSessions st now maxAge).dirs) ∧
    (∀ sid : String,
        (∀ r ∈ st.db, r.session_id = sid → ¬ r.last_accessed < now - 3600 * maxAge) →
        getSession (cleanupOldSessions st now maxAge).db sid = getSession st.db sid) := by
  refine ⟨?_, ?_, ?_⟩
  · intro sid hall
    constructor
    · simp only [getSession, cleanupOldSessions]
      rw [List.find?_eq_none]
      intro x hx
      simp only [List.mem_map] at hx
      obtain ⟨r, hr, rfl⟩ := hx
      by_cases hsid : r.session_id = sid
      · have hold := hall r hr hsid
        simp [hold, hsid]
      · by_cases hold : r.last_accessed < now - 3600 * maxAge
        · simp [hold, hsid]
        · simp [hold, hsid]
    · intro s hs
      simp only [listActiveSessions, mem_sortByAccessedDesc, List.mem_filter] at hs
      obtain ⟨hmem, hact⟩ := hs
      simp only [cleanupOldSessions, List.mem_map] at hmem
      obtain ⟨r, hr, rfl⟩ := hmem
      intro hss
      by_cases hold : r.last_accessed < now - 3600 * maxAge
      · simp [hold] at hact
      · simp only [if_neg hold] at hss
        exact hold (hall r hr hss)
  · intro r hr hold hmem
    simp only [cleanupOldSessions, List.mem_filter] at hmem
    have hany : st.db.any
        (fun rr => decide (rr.last_accessed < now - 3600 * maxAge) && rr.user_data_dir == r.user_data_dir) = true := by
      rw [List.any_eq_true]
      exact ⟨r, hr, by simp [hold]⟩
    rw [hany] at hmem
    simp at hmem
  · intro sid hkeep
    simp only [getSession, cleanupOldSessions]
    apply find?_map_congr
    intro r hr
    by_cases hsid : r.session_id = sid
    · right
      simp [hkeep r hr hsid]
    · left
      by_cases hold : r.last_accessed < now - 3600 * maxAge
      · constructor <;> simp [hsid, hold]
      · constructor <;> simp [hsid, hold]

/-- Witness for C1: with one stale and one fresh session, cleanup at a
concrete time expires the stale one. -/
theorem cleanup_old_sessions_expires_witness :
    getSession (cleanupOldSessions
        ⟨[⟨"old", "dir_old", 0, 0, [], none, true⟩,
          ⟨"new", "dir_new", 99000, 99000, [], none, true⟩],
         ["dir_old", "dir_new"]⟩ 100000 24).db "old" = none ∧
    ∀ s ∈ listActiveSessions (cleanupOldSessions
        ⟨[⟨"old", "dir_old", 0, 0, [], none, true⟩,
          ⟨"new", "dir_new", 99000, 99000, [], none, true⟩],
         ["dir_old", "dir_new"]⟩ 100000 24).db, s.session_id ≠ "old" :=
  (cleanup_old_sessions_expires
      ⟨[⟨"old", "dir_old", 0, 0, [], none, true⟩,
        ⟨"new", "dir_new", 99000, 99000, [], none, true⟩],
       ["dir_old", "dir_new"]⟩ 100000 24).1 "old" (by
    intro r hr
    simp only [List.mem_cons, List.not_mem_nil, or_false] at hr
    rcases hr with rfl | rfl
    · intro _
      norm_num
    · intro h
      exact absurd h (by decide))

/-- C4 counterexample: `import_session_state` stores the imported command
history without truncation, so importing a 51-command backup leaves a
stored session whose history exceeds 50 entries. -/
theorem import_session_state_overflows_history :
    ∃ r ∈ (importSessionState ⟨[], []⟩
        ⟨"s1", "dir1", 0, List.replicate 51 "cmd", none⟩ 100).db,
      50 < r.command_history.length := by
  refine ⟨⟨"s1", "dir1", 0, 100, List.replicate 51 "cmd", none, true⟩, ?_, ?_⟩
  · simp [importSessionState, saveSession]
  · simp

/-- C4 (amended): `add_command_to_session` always leaves the stored command
history of the addressed session at no more than 50 entries, retaining
exactly the most recent commands (the 50 most recent whenever the appended
history exceeds the bound); the bound is an effect of this operation, not a
table invariant, since `import_session_state` stores imported histories of
any length. -/
theorem add_command_bounds_history (st : ManagerState) (sid command : String)
    (url : Option String) (now : ℚ) (s : SessionRow) :
    getSession st.db sid = some s →
    ∀ r ∈ (addCommandToSession st sid command url now).db, r.session_id = sid →
      r.command_history.length ≤ 50 ∧
      r.command_history =
        (s.command_history ++ [command]).drop ((s.command_history ++ [command]).length - 50) := by
  intro hget r hr hrid
  have hmem : s ∈ st.db := List.mem_of_find?_eq_some hget
  have hpred := List.find?_some hget
  simp only [Bool.and_eq_true, beq_iff_eq] at hpred
  have hsid : s.session_id = sid := hpred.1
  simp only [addCommandToSession, hget, saveSession] at hr
  have hany : st.db.any (fun rr => rr.session_id ==
      ({ s with
          command_history := if (s.command_history ++ [command]).length > 50 then
            (s.command_history ++ [command]).drop ((s.command_history ++ [command]).length - 50)
          else s.command_history ++ [command],
          current_url := match url with
            | some u => if u.isEmpty then s.current_url else some u
            | none => s.current_url,
          last_accessed := now } : SessionRow).session_id) = true := by
    rw [List.any_eq_true]
    exact ⟨s, hmem, by simp⟩
  rw [if_pos hany, List.mem_map] at hr
  obtain ⟨rr, hrr, rfl⟩ := hr
  by_cases heq : rr.session_id = s.session_id
  · rw [if_pos (by simp [heq])]
    constructor
    · by_cases hlen : (s.command_history ++ [command]).length > 50
      · simp only [if_pos hlen, List.length_drop]
        omega
      · simp only [if_neg hlen]
        omega
    · by_cases hlen : (s.command_history ++ [command]).length > 50
      · simp only [if_pos hlen]
      · simp only [if_neg hlen]
        have hz : (s.command_history ++ [command]).length - 50 = 0 := by omega
        rw [hz, List.drop_zero]
  · rw [if_neg (by simp [heq])] at hrid ⊢
    exact absurd (hrid.trans hsid.symm) heq

/-- Witness for C4 at a concrete one-session table. -/
theorem add_command_bounds_history_witness :
    (⟨"s1", "d1", 0, 5, ["a", "b"], none, true⟩ : SessionRow).command_history.length ≤ 50 ∧
    (⟨"s1", "d1", 0, 5, ["a", "b"], none, true⟩ : SessionRow).command_history =
      ((["a"] ++ ["b"]).drop ((["a"] ++ ["b"]).length - 50)) :=
  add_command_bounds_history
    ⟨[⟨"s1", "d1", 0, 0, ["a"], none, true⟩], ["d1"]⟩ "s1" "b" none 5
    ⟨"s1", "d1", 0, 0, ["a"], none, true⟩ (by decide)
    ⟨"s1", "d1", 0, 5, ["a", "b"], none, true⟩ (by decide) (by decide)

end SessionMgr

namespace Face

/-- The two control modes of `UnifiedFaceController` (face.py lines 29-31). -/
inductive Mode
  | gesture
  | mouse
deriving DecidableEq, Repr

/-- Head movement directions detected by `detect_head_gesture`. -/
inductive Dir
  | left
  | right
deriving DecidableEq, Repr

/-- Gesture events returned by the gesture-mode detectors. -/
inductive Gesture
  | head_left
  | head_right
  | wide_eyes
deriving DecidableEq, Repr

/-- The `UnifiedFaceController` state touched by `detect_head_gesture` and
`detect_wide_eyes_gesture` (face.py lines 38-61).  The landmark geometry
(floating-point norms) is abstracted: each frame delivers the eye aspect
ratios and `time.time()` as rational inputs. -/
structure ControllerState where
  current_mode : Mode
  gesture_center_x : Option ℚ
  gesture_active : Bool
  last_gesture_direction : Option Dir
  last_gesture_time : ℚ
  baseline_ear : Option ℚ
  wide_eyes_calibration_frames : Nat
  last_wide_eyes_time : ℚ
deriving DecidableEq, Repr

/-- `self.gesture_cooldown_time = 1.5` (face.py line 39). -/
def gesture_cooldown_time : ℚ := 3 / 2

/-- `self.head_range = 0.15` (face.py line 46). -/
def head_range : ℚ := 3 / 20

/-- `self.head_reset_range = 0.08` (face.py line 47). -/
def head_reset_range : ℚ := 2 / 25

/-- `self.wide_eyes_multiplier = 1.25` (face.py line 59). -/
def wide_eyes_multiplier : ℚ := 5 / 4

/-- `self.wide_eyes_calibration_needed = 30` (face.py line 61). -/
def wide_eyes_calibration_needed : Nat := 30

/-- The state `UnifiedFaceController.__init__` establishes (face.py lines
29-61): gesture mode, no calibration, all cooldown clocks at 0. -/
def initState : ControllerState :=
  { current_mode := Mode.gesture,
    gesture_center_x := none,
    gesture_active := false,
    last_gesture_direction := none,
    last_gesture_time := 0,
    baseline_ear := none,
    wide_eyes_calibration_frames := 0,
    last_wide_eyes_time := 0 }

/-- `UnifiedFaceController.calculate_eye_aspect_ratio` (face.py lines
94-100) on the three numpy norms `A`, `B`, `C` of the eye landmark
differences, taken as inputs. -/
def calculateEyeAspectRatio (A B C : ℚ) : ℚ := (A + B) / (2 * C)

/-- `UnifiedFaceController.detect_head_gesture` (face.py lines 112-154) on
one frame: `nose_x` is `face_landmarks.landmark[1].x`, `t` is
`time.time()`. -/
def detectHeadGesture (st : ControllerState) (nose_x t : ℚ) :
    ControllerState × Option Gesture :=
  if st.current_mode ≠ Mode.gesture then (st, none)
  else
    match st.gesture_center_x with
    | none => ({ st with gesture_center_x := some nose_x }, none)
    | some center =>
      let movement := nose_x - center
      let current_direction : Option Dir :=
        if head_range < |movement| then
          some (if 0 < movement then Dir.right else Dir.left)
        else none
      let st1 := if |movement| < head_reset_range then
          { st with gesture_active := false, last_gesture_direction := none }
        else st
      if t - st1.last_gesture_time < gesture_cooldown_time then (st1, none)
      else if current_direction.isSome ∧ current_direction = st1.last_gesture_direction ∧
          st1.gesture_active then (st1, none)
      else
        match current_direction with
        | some d =>
            let st2 :=
              { st1 with last_gesture_time := t, gesture_active := true,
                         last_gesture_direction := some d }
            let g := match d with
              | Dir.right => Gesture.head_right
              | Dir.left => Gesture.head_left
            (st2, some g)
        | none => (st1, none)

/-- `UnifiedFaceController.detect_wide_eyes_gesture` (face.py lines
204-253) on one frame: `left_ear` and `right_ear` are the two eye aspect
ratios computed from the frame's landmarks, `t` is `time.time()`. -/
def detectWideEyes (st : ControllerState) (left_ear right_ear t : ℚ) :
    ControllerState × Option Gesture :=
  if st.current_mode ≠ Mode.gesture then (st, none)
  else if t - st.last_wide_eyes_time < gesture_cooldown_time then (st, none)
  else
    let avg_ear := (left_ear + right_ear) / 2
    match st.baseline_ear with
    | none =>
        let st1 :=
          { st with baseline_ear := some avg_ear,
                    wide_eyes_calibration_frames := st.wide_eyes_calibration_frames + 1 }
        (st1, none)
    | some b =>
        if st.wide_eyes_calibration_frames < wide_eyes_calibration_needed then
          let st1 :=
            { st with baseline_ear := some (9 / 10 * b + 1 / 10 * avg_ear),
                      wide_eyes_calibration_frames := st.wide_eyes_calibration_frames + 1 }
          (st1, none)
        else
          let threshold := b * wide_eyes_multiplier
          let eyes_ratio := if 0 < b then avg_ear / b else 0
          if threshold < avg_ear ∧ 5 / 4 < eyes_ratio then
            ({ st with last_wide_eyes_time := t }, some Gesture.wide_eyes)
          else (st, none)

/-- A run of `detect_wide_eyes_gesture` over successive frames, each frame
carrying the left ear, right ear and timestamp. -/
def runWideEyes (st : ControllerState) : List (ℚ × ℚ × ℚ) → ControllerState × List (Option Gesture)
  | [] => (st, [])
  | (l, r, t) :: rest =>
      let step := detectWideEyes st l r t
      let tail := runWideEyes step.1 rest
      (tail.1, step.2 :: tail.2)

/-- The exponential-moving-average baseline the spec describes: the first
sample, then `0.9 * baseline + 0.1 * sample` per further sample. -/
def emaBaseline : List ℚ → Option ℚ
  | [] => none
  | e :: es => some (es.foldl (fun b x => 9 / 10 * b + 1 / 10 * x) e)

/-- A run of `detect_head_gesture` over successive frames, pairing each
frame's timestamp with the detector's output. -/
def runHead (st : ControllerState) : List (ℚ × ℚ) → List (ℚ × Option Gesture)
  | [] => []
  | (nx, t) :: rest =>
      let step := detectHeadGesture st nx t
      (t, step.2) :: runHead step.1 rest

/-- The timestamps of the frames on which a head-gesture event fired. -/
def headEventTimes (l : List (ℚ × Option Gesture)) : List ℚ :=
  (l.filter (fun p => p.2.isSome)).map (fun p => p.1)

lemma detectHeadGesture_last_time (st : ControllerState) (nx t : ℚ) :
    ((detectHeadGesture st nx t).2 = none ∧
      (detectHeadGesture st nx t).1.last_gesture_time = st.last_gesture_time) ∨
    ((detectHeadGesture st nx t).2.isSome = true ∧
      (detectHeadGesture st nx t).1.last_gesture_time = t ∧
      st.last_gesture_time + gesture_cooldown_time ≤ t) := by
  by_cases c1 : st.current_mode ≠ Mode.gesture
  · left
    simp [detectHeadGesture, c1]
  cases hc : st.gesture_center_x with
  | none =>
    left
    simp [detectHeadGesture, c1, hc]
  | some center =>
    by_cases c4 : t - st.last_gesture_time < gesture_cooldown_time
    · left
      by_cases c3 : |nx - center| < head_reset_range <;>
        simp [detectHeadGesture, c1, hc, c3, c4]
    · by_cases c6 : head_range < |nx - center|
      · by_cases c3 : |nx - center| < head_reset_range
        · right
          simp [detectHeadGesture, c1, hc, c3, c4, c6]
          linarith [not_lt.mp c4]
        · by_cases c5 : some (if center < nx then Dir.right else Dir.left) =
              st.last_gesture_direction ∧ st.gesture_active = true
          · left
            obtain ⟨c5a, c5b⟩ := c5
            simp [detectHeadGesture, c1, hc, c3, c4, c6, ← c5a, c5b]
          · right
            simp [detectHeadGesture, c1, hc, c3, c4, c6, c5]
            linarith [not_lt.mp c4]
      · left
        by_cases c3 : |nx - center| < head_reset_range <;>
          simp [detectHeadGesture, c1, hc, c3, c4, c6]

lemma runHead_cooldown_aux :
    ∀ (inputs : List (ℚ × ℚ)) (st : ControllerState),
      (headEventTimes (runHead st inputs)).Pairwise
        (fun a b => a + gesture_cooldown_time ≤ b) ∧
      ∀ u ∈ headEventTimes (runHead st inputs),
        st.last_gesture_time + gesture_cooldown_time ≤ u := by
  intro inputs
  induction inputs with
  | nil =>
    intro st
    simp [runHead, headEventTimes]
  | cons p rest ih =>
    intro st
    obtain ⟨nx, t⟩ := p
    rcases detectHeadGesture_last_time st nx t with ⟨hout, hlast⟩ | ⟨hout, hlast, hcool⟩
    · have hh : headEventTimes (runHead st ((nx, t) :: rest)) =
          headEventTimes (runHead (detectHeadGesture st nx t).1 rest) := by
        simp [runHead, headEventTimes, List.filter_cons, hout]
      rw [hh]
      refine ⟨(ih _).1, ?_⟩
      intro u hu
      have hrest := (ih (detectHeadGesture st nx t).1).2 u hu
      rwa [hlast] at hrest
    · have hh : headEventTimes (runHead st ((nx, t) :: rest)) =
          t :: headEventTimes (runHead (detectHeadGesture st nx t).1 rest) := by
        simp [runHead, headEventTimes, List.filter_cons, hout]
      rw [hh]
      have htail := ih (detectHeadGesture st nx t).1
      have hge : ∀ u ∈ headEventTimes (runHead (detectHeadGesture st nx t).1 rest),
          t + gesture_cooldown_time ≤ u := by
        intro u hu
        have hrest := htail.2 u hu
        rwa [hlast] at hrest
      have h0 : (0 : ℚ) ≤ gesture_cooldown_time := by norm_num [gesture_cooldown_time]
      refine ⟨List.Pairwise.cons hge htail.1, ?_⟩
      intro u hu
      rcases List.mem_cons.mp hu with rfl | hu
      · exact hcool
      · have h1 := hge u hu
        linarith

/-- C7: over every sequence of processed frames, `detect_head_gesture`
never produces two head-gesture events less than the 1.5-second
`gesture_cooldown_time` apart: any two frames on which an event fired have
timestamps at least 1.5 seconds apart, in order. -/
theorem detect_head_gesture_cooldown (inputs : List (ℚ × ℚ)) :
    (headEventTimes (runHead initState inputs)).Pairwise
      (fun a b => a + gesture_cooldown_time ≤ b) :=
  (runHead_cooldown_aux inputs initState).1

lemma runWideEyes_calibration_step :
    ∀ (inputs : List (ℚ × ℚ × ℚ)) (st : ControllerState) (b : ℚ),
      st.current_mode = Mode.gesture →
      st.baseline_ear = some b →
      st.wide_eyes_calibration_frames + inputs.length ≤ 30 →
      (∀ p ∈ inputs, gesture_cooldown_time ≤ p.2.2 - st.last_wide_eyes_time) →
      (runWideEyes st inputs).2 = List.replicate inputs.length none ∧
      (runWideEyes st inputs).1.baseline_ear =
        some ((inputs.map (fun p => (p.1 + p.2.1) / 2)).foldl
          (fun bb x => 9 / 10 * bb + 1 / 10 * x) b) ∧
      (runWideEyes st inputs).1.wide_eyes_calibration_frames =
        st.wide_eyes_calibration_frames + inputs.length ∧
      (runWideEyes st inputs).1.last_wide_eyes_time = st.last_wide_eyes_time ∧
      (runWideEyes st inputs).1.current_mode = Mode.gesture := by
  intro inputs
  induction inputs with
  | nil =>
    intro st b h1 h2 _ _
    simp [runWideEyes, h1, h2]
  | cons p rest ih =>
    intro st b h1 h2 h3 h4
    obtain ⟨l, r, t⟩ := p
    have hcool : ¬ (t - st.last_wide_eyes_time < gesture_cooldown_time) := by
      have hp := h4 (l, r, t) (by simp)
      simp only at hp
      linarith
    have hlt : st.wide_eyes_calibration_frames < wide_eyes_calibration_needed := by
      simp only [List.length_cons] at h3
      simp only [wide_eyes_calibration_needed]
      omega
    have hmode : ¬ st.current_mode ≠ Mode.gesture := by simp [h1]
    have hstep : detectWideEyes st l r t =
        ({ st with baseline_ear := some (9 / 10 * b + 1 / 10 * ((l + r) / 2)),
                   wide_eyes_calibration_frames := st.wide_eyes_calibration_frames + 1 }, none) := by
      simp [detectWideEyes, hmode, hcool, h2, hlt]
    have hrest := ih
      { st with baseline_ear := some (9 / 10 * b + 1 / 10 * ((l + r) / 2)),
                wide_eyes_calibration_frames := st.wide_eyes_calibration_frames + 1 }
      (9 / 10 * b + 1 / 10 * ((l + r) / 2)) h1 rfl
      (by simp only [List.length_cons] at h3; simp; omega)
      (by intro q hq; exact h4 q (by simp [hq]))
    simp only [runWideEyes, hstep]
    refine ⟨?_, ?_, ?_, ?_, ?_⟩
    · simp only [List.length_cons, List.replicate_succ]
      exact congrArg (List.cons none) hrest.1
    · simp only [List.map_cons, List.foldl_cons]
      exact hrest.2.1
    · simp only [List.length_cons]
      rw [hrest.2.2.1]
      simp
      omega
    · exact hrest.2.2.2.1
    · exact hrest.2.2.2.2

lemma runWideEyes_calibration_init :
    ∀ (inputs : List (ℚ × ℚ × ℚ)),
      inputs.length ≤ 30 →
      (∀ p ∈ inputs, gesture_cooldown_time ≤ p.2.2) →
      (runWideEyes initState inputs).2 = List.replicate inputs.length none ∧
      (runWideEyes initState inputs).1.baseline_ear =
        emaBaseline (inputs.map (fun p => (p.1 + p.2.1) / 2)) ∧
      (runWideEyes initState inputs).1.wide_eyes_calibration_frames = inputs.length := by
  intro inputs hlen hcool
  cases inputs with
  | nil => simp [runWideEyes, initState, emaBaseline]
  | cons p rest =>
    obtain ⟨l, r, t⟩ := p
    have hc1 : ¬ (t < gesture_cooldown_time) := by
      have hp := hcool (l, r, t) (by simp)
      simp only at hp
      linarith
    have hmode : ¬ initState.current_mode ≠ Mode.gesture := by simp [initState]
    have hstep : detectWideEyes initState l r t =
        ({ initState with baseline_ear := some ((l + r) / 2),
                          wide_eyes_calibration_frames := 1 }, none) := by
      simp [detectWideEyes, hmode, hc1, initState]
    have hrest := runWideEyes_calibration_step rest
      { initState with baseline_ear := some ((l + r) / 2), wide_eyes_calibration_frames := 1 }
      ((l + r) / 2) rfl rfl
      (by simp only [List.length_cons] at hlen; simp; omega)
      (by
        intro q hq
        have := hcool q (by simp [hq])
        simpa [initState] using this)
    simp only [runWideEyes, hstep]
    refine ⟨?_, ?_, ?_⟩
    · simp only [List.length_cons, List.replicate_succ]
      exact congrArg (List.cons none) hrest.1
    · simp only [List.map_cons, emaBaseline]
      exact hrest.2.1
    · simp only [List.length_cons]
      rw [hrest.2.2.1]
      simp
      omega

lemma detectWideEyes_post (st : ControllerState) (l r t b : ℚ)
    (h1 : st.current_mode = Mode.gesture) (h2 : st.baseline_ear = some b)
    (h3 : wide_eyes_calibration_needed ≤ st.wide_eyes_calibration_frames) (h4 : 0 < b) :
    (detectWideEyes st l r t).2 = some Gesture.wide_eyes ↔
      (b * wide_eyes_multiplier < (l + r) / 2 ∧
        gesture_cooldown_time ≤ t - st.last_wide_eyes_time) := by
  have hmode : ¬ st.current_mode ≠ Mode.gesture := by simp [h1]
  have hnlt : ¬ st.wide_eyes_calibration_frames < wide_eyes_calibration_needed :=
    not_lt.mpr h3
  by_cases hcool : t - st.last_wide_eyes_time < gesture_cooldown_time
  · simp only [detectWideEyes, hmode, ite_false, if_pos hcool]
    constructor
    · intro hcontra
      exact absurd hcontra (by simp)
    · intro hrhs
      linarith [hrhs.2]
  · have hratio : (5 : ℚ) / 4 < ((l + r) / 2) / b ↔ b * wide_eyes_multiplier < (l + r) / 2 := by
      rw [lt_div_iff₀ h4, wide_eyes_multiplier, mul_comm]
    by_cases hcond : b * wide_eyes_multiplier < (l + r) / 2
    · have hc2 : b * wide_eyes_multiplier < (l + r) / 2 ∧ 5 / 4 < ((l + r) / 2) / b :=
        ⟨hcond, hratio.mpr hcond⟩
      simp only [detectWideEyes, hmode, ite_false, if_neg hcool, h2, hnlt, if_neg hnlt,
        if_pos h4, if_pos hc2]
      constructor
      · intro _
        exact ⟨hcond, not_lt.mp hcool⟩
      · intro _
        trivial
    · have hc2 : ¬ (b * wide_eyes_multiplier < (l + r) / 2 ∧ 5 / 4 < ((l + r) / 2) / b) := by
        intro hcontra
        exact hcond hcontra.1
      simp only [detectWideEyes, hmode, ite_false, if_neg hcool, h2, hnlt, if_neg hnlt,
        if_pos h4, if_neg hc2]
      constructor
      · intro hcontra
        exact absurd hcontra (by simp)
      · intro hrhs
        exact absurd hrhs.1 hcond

/-- C6: `detect_wide_eyes_gesture` spends its first 30 processed frames
calibrating — the baseline eye aspect ratio is the first frame's average
ratio and is then updated as `0.9 * baseline + 0.1 * current` — and returns
no gesture during those frames; once calibrated (and for any positive
baseline), it returns `wide_eyes` exactly when the average of the two eye
aspect ratios exceeds `baseline * 1.25` and at least 1.5 seconds have
elapsed since the previous wide-eyes trigger. -/
theorem detect_wide_eyes_spec :
    (∀ inputs : List (ℚ × ℚ × ℚ), inputs.length ≤ 30 →
      (∀ p ∈ inputs, gesture_cooldown_time ≤ p.2.2) →
      (runWideEyes initState inputs).2 = List.replicate inputs.length none ∧
      (runWideEyes initState inputs).1.baseline_ear =
        emaBaseline (inputs.map (fun p => (p.1 + p.2.1) / 2)) ∧
      (runWideEyes initState inputs).1.wide_eyes_calibration_frames = inputs.length) ∧
    (∀ (st : ControllerState) (l r t b : ℚ),
      st.current_mode = Mode.gesture →
      st.baseline_ear = some b →
      wide_eyes_calibration_needed ≤ st.wide_eyes_calibration_frames →
      0 < b →
      ((detectWideEyes st l r t).2 = some Gesture.wide_eyes ↔
        (b * wide_eyes_multiplier < (l + r) / 2 ∧
          gesture_cooldown_time ≤ t - st.last_wide_eyes_time))) :=
  ⟨runWideEyes_calibration_init, detectWideEyes_post⟩

/-- Witness for C6: a calibrated state with baseline 1 triggers on average
ratio 2 at time 2. -/
theorem detect_wide_eyes_spec_witness :
    (detectWideEyes ⟨Mode.gesture, none, false, none, 0, some 1, 30, 0⟩ 2 2 2).2 =
      some Gesture.wide_eyes :=
  (detect_wide_eyes_spec.2 ⟨Mode.gesture, none, false, none, 0, some 1, 30, 0⟩ 2 2 2 1
      rfl rfl (by decide) (by norm_num)).mpr
    (by constructor <;> norm_num [wide_eyes_multiplier, gesture_cooldown_time])

end Face

namespace Api

/-- HTTP methods used by the FastAPI route decorators. -/
inductive HttpMethod
  | get
  | post
  | delete
deriving DecidableEq, Repr

/-- The route table of the FastAPI `app`: every `@app.<method>(path)`
decorator in optimized_browser_agent_api.py — `send_message` (line 210),
`health_check` (line 252), `get_conversation` (line 280),
`clear_conversation` (line 297) and `root` (line 304). -/
def appRoutes : List (HttpMethod × String) :=
  [(HttpMethod.post, "/message"),
   (HttpMethod.get, "/health"),
   (HttpMethod.get, "/conversation"),
   (HttpMethod.delete, "/conversation"),
   (HttpMethod.get, "/")]

/-- C8 counterexample: the service registers the route `GET /conversation`,
whose path is neither `/message` nor `/health`, and registers five routes in
total, so it does not expose exactly the two endpoints `/message` and
`/health`. -/
theorem api_routes_not_exactly_two :
    (HttpMethod.get, "/conversation") ∈ appRoutes ∧
    "/conversation" ≠ "/message" ∧
    "/conversation" ≠ "/health" ∧
    appRoutes.length ≠ 2 := by
  decide

/-- C8 (amended): the backend HTTP service registers five routes on four
paths — `POST /message`, `GET /health`, `GET /conversation`,
`DELETE /conversation` and `GET /` — all of them JSON in and out through
the pydantic response models. -/
theorem api_routes_enumeration :
    appRoutes =
      [(HttpMethod.post, "/message"),
       (HttpMethod.get, "/health"),
       (HttpMethod.get, "/conversation"),
       (HttpMethod.delete, "/conversation"),
       (HttpMethod.get, "/")] ∧
    appRoutes.length = 5 ∧
    ∀ p ∈ appRoutes,
      p.2 = "/message" ∨ p.2 = "/health" ∨ p.2 = "/conversation" ∨ p.2 = "/" := by
  refine ⟨rfl, rfl, ?_⟩
  decide

/-- The ASCII characters `str.strip()` removes (the transcribed and typed
messages here are ASCII). -/
def isPyWs (c : Char) : Bool :=
  c == ' ' || c == '\t' || c == '\n' || c == '\r' || c == '\x0b' || c == '\x0c'

/-- Python `str.strip()`: drop leading and trailing whitespace. -/
def pyStrip (s : String) : String :=
  String.mk (((s.data.dropWhile isPyWs).reverse.dropWhile isPyWs).reverse)

/-- Messages of the global `InMemoryChatMessageHistory`
(optimized_browser_agent_api.py line 38): human and AI turns. -/
inductive ChatMsg
  | human (content : String)
  | ai (content : String)
deriving DecidableEq, Repr

/-- The mutable module state the endpoints act on: the conversation
history. -/
structure ApiState where
  history : List ChatMsg
deriving DecidableEq, Repr

/-- `process_message` (optimized_browser_agent_api.py lines 138-193).
`a2a` is `none` when the orchestrator is uninitialized, otherwise the
outcome of `a2a_orchestrator.process_message` (`final_response` or a raised
exception); `chat` likewise for `chat_model.invoke`.  The user message is
appended to the history before anything can fail; a successful response is
appended after; every failure ends in `HTTPException(500, ...)`. -/
def processMessageApi (a2a chat : Option (Except String String))
    (st : ApiState) (msg : String) : ApiState × Except (Nat × String) String :=
  let h1 := st.history ++ [ChatMsg.human msg]
  match a2a with
  | some (Except.ok resp) => (⟨h1 ++ [ChatMsg.ai resp]⟩, Except.ok resp)
  | some (Except.error e) =>
      match chat with
      | some (Except.ok resp2) => (⟨h1 ++ [ChatMsg.ai resp2]⟩, Except.ok resp2)
      | some (Except.error _) => (⟨h1⟩, Except.error (500, "Error processing message: " ++ e))
      | none => (⟨h1⟩, Except.error (500, "Error processing message: " ++ e))
  | none =>
      match chat with
      | some (Except.ok resp) => (⟨h1 ++ [ChatMsg.ai resp]⟩, Except.ok resp)
      | some (Except.error e) => (⟨h1⟩, Except.error (500, "Error processing message: " ++ e))
      | none =>
          -- the raised HTTPException(500, "Neither ...") is itself caught by
          -- the broad except and re-wrapped
          (⟨h1⟩, Except.error (500,
            "Error processing message: 500: Neither A2A flow nor chat model initialized"))

/-- What a call to `POST /message` produces: either a propagated
`HTTPException` (status, detail) or a `MessageResponse` body (the wall-clock
`execution_time` and `timestamp` fields are elided). -/
inductive HttpOutcome
  | httpError (status : Nat) (detail : String)
  | response (status : String) (response : String) (audio_url : Option String)
deriving DecidableEq, Repr

/-- `send_message` (optimized_browser_agent_api.py lines 210-249): reject a
blank message with `HTTPException(400, "Message cannot be empty")` before
touching anything, otherwise run `process_message`, attach TTS audio
(`generate_tts_audio` never raises), and catch any failure into an
error-status `MessageResponse`. -/
def sendMessage (a2a chat : Option (Except String String))
    (tts : String → Option String) (st : ApiState) (msg : String) :
    ApiState × HttpOutcome :=
  if pyStrip msg = "" then (st, HttpOutcome.httpError 400 "Message cannot be empty")
  else
    let pm := processMessageApi a2a chat st msg
    match pm.2 with
    | Except.ok resp => (pm.1, HttpOutcome.response "success" resp (tts resp))
    | Except.error e =>
        (pm.1, HttpOutcome.response "error" ("Error: " ++ toString e.1 ++ ": " ++ e.2) none)

/-- C10: a `POST /message` whose message is empty or all whitespace fails
with HTTP 400 and detail `Message cannot be empty`, and the conversation
history is left exactly as it was. -/
theorem empty_message_rejected (a2a chat : Option (Except String String))
    (tts : String → Option String) (st : ApiState) (msg : String) :
    pyStrip msg = "" →
    sendMessage a2a chat tts st msg =
      (st, HttpOutcome.httpError 400 "Message cannot be empty") := by
  intro h
  simp [sendMessage, h]

/-- Witness for C10: a whitespace-only message against a non-empty history
is rejected with 400 and the history intact. -/
theorem empty_message_rejected_witness :
    sendMessage none none (fun _ => none) ⟨[ChatMsg.human "hi"]⟩ "  \t " =
      (⟨[ChatMsg.human "hi"]⟩, HttpOutcome.httpError 400 "Message cannot be empty") :=
  empty_message_rejected none none (fun _ => none) ⟨[ChatMsg.human "hi"]⟩ "  \t "
    (by decide)

end Api

namespace Voice

/-- The ASCII regex whitespace class characters (`\s`) used by the
wake-word patterns. -/
def isWs (c : Char) : Bool :=
  c == ' ' || c == '\t' || c == '\n' || c == '\r' || c == '\x0b' || c == '\x0c'

/-- Regex word characters for the word boundary check. -/
def isWordChar (c : Char) : Bool := c.isAlphanum || c == '_'

/-- The atoms of the wake-word regexes of voice_recognition.py: word
boundary, a literal, an optional comma or exclamation mark, one or more
whitespace characters, a single whitespace character, and the end-of-string
anchor. -/
inductive Atom
  | wb
  | lit (cs : List Char)
  | optPunct
  | wsPlus
  | wsOne
  | eos
deriving DecidableEq, Repr

/-- Whether the character at position `i` of `s` is a word character. -/
def wordAt (s : List Char) (i : Nat) : Bool :=
  match s[i]? with
  | some c => isWordChar c
  | none => false

/-- Word boundary between positions `i - 1` and `i`. -/
def isBoundary (s : List Char) (i : Nat) : Bool :=
  (if i = 0 then false else wordAt s (i - 1)) != wordAt s i

/-- First result of `f` along a list. -/
def firstSome {α β : Type} (f : α → Option β) : List α → Option β
  | [] => none
  | a :: as =>
      match f a with
      | some b => some b
      | none => firstSome f as

/-- Backtracking matcher for a sequence of atoms against `s` starting at
position `i`, with Python greediness (`[,!]?` and `\s+` prefer consuming
more); returns the end position of the match.  `$` matches at the end of
the string or just before a final newline, as in `re`. -/
def matchAtoms (s : List Char) : List Atom → Nat → Option Nat
  | [], i => some i
  | Atom.wb :: rest, i => if isBoundary s i then matchAtoms s rest i else none
  | Atom.lit cs :: rest, i =>
      if (s.drop i).take cs.length = cs then matchAtoms s rest (i + cs.length) else none
  | Atom.optPunct :: rest, i =>
      match s[i]? with
      | some c =>
          if c == ',' || c == '!' then
            match matchAtoms s rest (i + 1) with
            | some e => some e
            | none => matchAtoms s rest i
          else matchAtoms s rest i
      | none => matchAtoms s rest i
  | Atom.wsPlus :: rest, i =>
      let k := ((s.drop i).takeWhile isWs).length
      if k = 0 then none
      else firstSome (fun d => matchAtoms s rest (i + d)) ((List.range k).map (fun j => k - j))
  | Atom.wsOne :: rest, i =>
      match s[i]? with
      | some c => if isWs c then matchAtoms s rest (i + 1) else none
      | none => none
  | Atom.eos :: rest, i =>
      if i = s.length ∨ (i + 1 = s.length ∧ s[i]? = some (Char.ofNat 10)) then
        matchAtoms s rest i
      else none

/-- `re.search`: the leftmost starting position with a match; returns
(start, end). -/
def search (s : List Char) (pat : List Atom) : Option (Nat × Nat) :=
  firstSome (fun p => (matchAtoms s pat p).map (fun e => (p, e)))
    (List.range (s.length + 1))

/-- Literal atom from a string. -/
def litS (s : String) : Atom := Atom.lit s.data

/-- `self.flow_patterns` (voice_recognition.py lines 54-70), in order. -/
def flowPatterns : List (List Atom) :=
  [[Atom.wb, litS "hey", Atom.optPunct, Atom.wsPlus, litS "flow", Atom.wb],
   [Atom.wb, litS "hey", Atom.optPunct, Atom.wsPlus, litS "flo", Atom.wb],
   [Atom.wb, litS "hay", Atom.optPunct, Atom.wsPlus, litS "flow", Atom.wb],
   [Atom.wb, litS "hay", Atom.optPunct, Atom.wsPlus, litS "flo", Atom.wb],
   [Atom.wb, litS "heyflow", Atom.wb],
   [Atom.wb, litS "hayflo", Atom.wb],
   [Atom.wb, litS "hey", Atom.optPunct, Atom.wsPlus, litS "fluer", Atom.wb],
   [Atom.wb, litS "hey", Atom.optPunct, Atom.wsPlus, litS "fleur", Atom.wb],
   [Atom.wb, litS "hey", Atom.optPunct, Atom.wsPlus, litS "floor", Atom.wb],
   [Atom.wb, litS "he", Atom.optPunct, Atom.wsPlus, litS "flowed", Atom.wb],
   [Atom.wb, litS "he", Atom.optPunct, Atom.wsPlus, litS "flow", Atom.wb],
   [Atom.wb, litS "hey", Atom.optPunct, Atom.wsPlus, litS "flew", Atom.wb],
   [Atom.wb, litS "hey", Atom.optPunct, Atom.wsPlus, litS "flows", Atom.wb],
   [Atom.wb, litS "hey", Atom.optPunct, Atom.wsPlus, litS "flower", Atom.wb],
   [Atom.wb, litS "hey", Atom.optPunct, Atom.wsPlus, litS "fluid", Atom.wb]]

/-- `self.orange_patterns` (voice_recognition.py lines 72-84), in order. -/
def orangePatterns : List (List Atom) :=
  [[Atom.wb, litS "orange", Atom.optPunct, Atom.wsOne],
   [Atom.wb, litS "oranges", Atom.optPunct, Atom.wsOne],
   [Atom.wb, litS "orenge", Atom.optPunct, Atom.wsOne],
   [Atom.wb, litS "orange", Atom.optPunct, Atom.eos],
   [Atom.wb, litS "oranj", Atom.optPunct, Atom.wsOne],
   [Atom.wb, litS "orang", Atom.optPunct, Atom.wsOne],
   [Atom.wb, litS "aurange", Atom.optPunct, Atom.wsOne],
   [Atom.wb, litS "arange", Atom.optPunct, Atom.wsOne],
   [Atom.wb, litS "urrange", Atom.optPunct, Atom.wsOne],
   [Atom.wb, litS "orrige", Atom.optPunct, Atom.wsOne],
   [Atom.wb, litS "oringe", Atom.optPunct, Atom.wsOne]]

/-- `str.lower()` character-wise (length preserving on this text, so the
match positions taken on the lowercased text index the original too). -/
def lowerStr (s : List Char) : List Char := s.map Char.toLower

/-- Python `str.strip()` on a character list. -/
def stripL (s : List Char) : List Char :=
  ((s.dropWhile isWs).reverse.dropWhile isWs).reverse

/-- The class `[,!.\s]` of the cleanup substitution. -/
def isPunctWs (c : Char) : Bool := c == ',' || c == '!' || c == '.' || isWs c

/-- The command cleanup of voice_recognition.py lines 155-157 (and 179-180):
`.strip()`, then `re.sub` of the leading `[,!.\s]+` run, then `.strip()`. -/
def cleanup (s : List Char) : List Char :=
  stripL ((stripL s).dropWhile isPunctWs)

/-- The `SpeechRecognitionThread` state read and written by the
transcription handlers (voice_recognition.py lines 43-51).  The
`waiting_for_dictation` attribute is created by the Orange branch of
`check_for_wake_words` (line 188) and never read; the initializer does not
set it. -/
structure VoiceState where
  is_processing_backend : Bool
  current_text_buffer : List Char
  waiting_for_command : Bool
  waiting_for_orange : Bool
  waiting_for_dictation : Bool
  wake_word_detected_time : Option ℚ
deriving DecidableEq, Repr

/-- The state `SpeechRecognitionThread.__init__` establishes. -/
def initVoiceState : VoiceState :=
  { is_processing_backend := false,
    current_text_buffer := [],
    waiting_for_command := false,
    waiting_for_orange := false,
    waiting_for_dictation := false,
    wake_word_detected_time := none }

/-- Signals emitted while handling one transcription. -/
inductive Emission
  | wakeWord (command : List Char)
  | dictation (text : List Char)
  | status (msg : String)
deriving DecidableEq, Repr

/-- `check_for_wake_words` (voice_recognition.py lines 139-213): flow
patterns first, then orange patterns, then the waiting-flag capture paths,
then the 10-second timeout reset.  `now` is `time.time()`. -/
def checkForWakeWords (st : VoiceState) (text : List Char) (is_final : Bool)
    (now : ℚ) : VoiceState × List Emission :=
  let text_lower := lowerStr text
  if !is_final then (st, [])
  else
    match firstSome (fun pat => (search text_lower pat).map (fun pe => pe.2)) flowPatterns with
    | some mend =>
        let command := cleanup (text.drop mend)
        if command ≠ [] then (st, [Emission.wakeWord command])
        else
          ({ st with waiting_for_command := true, wake_word_detected_time := some now },
           [Emission.status "Listening for command..."])
    | none =>
      match firstSome (fun pat => (search text_lower pat).map (fun pe => pe.2)) orangePatterns with
      | some mend =>
          let dictation := cleanup (text.drop mend)
          if dictation ≠ [] then (st, [Emission.dictation dictation])
          else
            ({ st with waiting_for_dictation := true, wake_word_detected_time := some now },
             [Emission.status "Orange dictation mode - speak your text..."])
      | none =>
          if st.waiting_for_command ∧ stripL text ≠ [] then
            ({ st with waiting_for_command := false },
             [Emission.wakeWord (stripL text), Emission.status "Listening for wake words..."])
          else if st.waiting_for_orange ∧ stripL text ≠ [] then
            ({ st with waiting_for_orange := false },
             [Emission.dictation (stripL text), Emission.status "Listening for wake words..."])
          else if (st.waiting_for_command ∨ st.waiting_for_orange) ∧
              st.wake_word_detected_time.isSome then
            match st.wake_word_detected_time with
            | some t0 =>
                if 10 < now - t0 then
                  ({ st with waiting_for_command := false, waiting_for_orange := false },
                   [Emission.status "Listening for wake words..."])
                else (st, [])
            | none => (st, [])
          else (st, [])

/-- `on_partial_transcription` (voice_recognition.py lines 108-119). -/
def onPartial (st : VoiceState) (text : List Char) (now : ℚ) : VoiceState × List Emission :=
  if st.is_processing_backend then (st, [])
  else
    checkForWakeWords { st with current_text_buffer := lowerStr text } text false now

/-- `on_final_transcription` (voice_recognition.py lines 121-132). -/
def onFinal (st : VoiceState) (text : List Char) (now : ℚ) : VoiceState × List Emission :=
  if st.is_processing_backend then (st, [])
  else
    let res := checkForWakeWords st text true now
    ({ res.1 with current_text_buffer := [] }, res.2)

/-- One Gladia callback: a partial or a final transcription. -/
inductive TranscriptionEvent
  | interim (text : List Char) (t : ℚ)
  | final (text : List Char) (t : ℚ)
deriving DecidableEq, Repr

/-- Dispatch of the Gladia callbacks. -/
def stepEvent (st : VoiceState) : TranscriptionEvent → VoiceState × List Emission
  | TranscriptionEvent.interim text t => onPartial st text t
  | TranscriptionEvent.final text t => onFinal st text t

/-- A run over a sequence of transcription events, concatenating the
emissions. -/
def runVoice (st : VoiceState) : List TranscriptionEvent → VoiceState × List Emission
  | [] => (st, [])
  | e :: es =>
      let r := stepEvent st e
      let rr := runVoice r.1 es
      (rr.1, r.2 ++ rr.2)

/-- C5 evaluated at the failing input: the final transcription `orange`
matches the orange wake-word pattern with no text after it, and the only
thing emitted is the dictation-mode status message — the branch sets the
never-read attribute `waiting_for_dictation` instead of
`waiting_for_orange`, so the following non-empty final transcription
`hello world` is not emitted through `dictation_detected` (nothing at all
is emitted for it). -/
theorem orange_capture_flag_never_fires :
    (runVoice initVoiceState
        [TranscriptionEvent.final ("orange".data) 0,
         TranscriptionEvent.final ("hello world".data) 1]).2 =
      [Emission.status "Orange dictation mode - speak your text..."] ∧
    (runVoice initVoiceState
        [TranscriptionEvent.final ("orange".data) 0,
         TranscriptionEvent.final ("hello world".data) 1]).1.waiting_for_dictation = true ∧
    (runVoice initVoiceState
        [TranscriptionEvent.final ("orange".data) 0,
         TranscriptionEvent.final ("hello world".data) 1]).1.waiting_for_orange = false := by
  decide

end Voice
